import Mathlib

/-!
Shallow embedding of the notification daemon in `ignis/services/notifications.py`.

Python dictionaries (`self._notifications`, `self._popups`) are modelled as
insertion-ordered association lists with the exact `dict` operations used by the
source (`get`, `pop`, item assignment, `values()`).  GObject signal emission is
synchronous: `emit` runs the handlers connected *at emission time*, in connection
order; a handler connected after an emission does not run for it.  The handlers
the service ever connects are represented as data (`ClosedHandler`) and
interpreted by `runClosedHandlers`.  The shared mutable `Notification` object
(aliased by both dictionaries under its id) is modelled by applying every field
write to both association lists at that id (`updObj`).
-/

set_option linter.unusedVariables false

namespace Ignis

/-- `NotificationAction` from the source, keeping its data fields (`id`, `label`);
the dbus / notification back references carry no state read by the modelled
operations. -/
structure NotificationAction where
  id : String
  label : String
deriving DecidableEq, Repr

/-- The `image-data` hint payload (`px_args` in `__save_pixbuf`): width, height,
rowstride, has_alpha, bits_per_sample, channels, raw bytes. -/
structure ImageData where
  width : Int
  height : Int
  rowstride : Int
  hasAlpha : Bool
  bitsPerSample : Int
  channels : Int
  data : List Nat
deriving DecidableEq, Repr

/-- The hint entries the source reads: `hints.get("urgency", 1)` and
`hints["image-data"]`; `none` models an absent key. -/
structure Hints where
  urgency : Option Int
  imageData : Option ImageData
deriving DecidableEq, Repr

/-- The arguments of a `Notify` call other than `replaces_id`; `now` is the
reading of `datetime.now().timestamp()` taken during `__init_notification`. -/
structure NotifyArgs where
  app_name : String
  app_icon : String
  summary : String
  body : String
  actions : List String
  hints : Hints
  timeout : Int
  now : Int
deriving DecidableEq, Repr

/-- The handlers the service connects to a notification's "closed" signal:
`__close_notification` (from `__add_notification`) and the replacement
initializer `lambda x: _init(_id)` (from the `replaces_id` branch of
`__Notify`). -/
inductive ClosedHandler where
  | closeNotification : ClosedHandler
  | initReplacement (id : Nat) (args : NotifyArgs) : ClosedHandler
deriving DecidableEq, Repr

/-- The `Notification` object.  `closedHandlers` is the ordered list of handlers
connected to its "closed" signal and `dismissedConnected` records whether
`__dismiss_popup` is connected to "dismissed" (both connected by
`__add_notification`).  Timestamps are modelled as integers; persistence is
structural, so the numeric type is immaterial to the properties proved here. -/
structure Notification where
  id : Nat
  app_name : String
  icon : Option String
  summary : String
  body : String
  actions : List NotificationAction
  urgency : Int
  timeout : Int
  time : Int
  popup : Bool
  closedHandlers : List ClosedHandler
  dismissedConnected : Bool
deriving DecidableEq, Repr

/-- The constructor's action list comprehension
`[NotificationAction(id=str(actions[i]), label=str(actions[i+1])) for i in range(0, len(actions), 2)]`:
pairs consecutive elements; on an odd-length list `actions[i + 1]` raises
`IndexError`, modelled as `none`. -/
def buildActions : List String → Option (List NotificationAction)
  | [] => some []
  | [_] => none
  | a :: b :: rest => (buildActions rest).map (fun l => ⟨a, b⟩ :: l)

/-- One serialized notification, the dictionary produced by `Notification.json`:
`actions` is the flattened alternating id/label sequence. -/
structure NotifRecord where
  id : Nat
  app_name : String
  icon : Option String
  summary : String
  body : String
  actions : List String
  timeout : Int
  time : Int
  urgency : Int
deriving DecidableEq, Repr

/-- One entry of the persisted `notifications` array as found on disk: either a
record with exactly the constructor's keyword fields, or a structurally invalid
entry on which `Notification(**n, ...)` raises. -/
inductive JsonEntry where
  | good (r : NotifRecord)
  | bad
deriving DecidableEq, Repr

/-- A parsed persisted file as `__load_notifications` reads it: `log_file.get("id", 0)`
and `log_file.get("notifications", [])`, with `none` modelling a missing key. -/
structure RawFile where
  id : Option Nat
  notifications : Option (List JsonEntry)
deriving DecidableEq, Repr

/-- The on-disk blob: either unparsable (`json.load` or the `.get` access raises)
or a parsed structure. -/
inductive Blob where
  | corrupt
  | parsed (f : RawFile)
deriving DecidableEq, Repr

/-- The data `__sync` serializes: `{"id": self._id, "notifications": [n.json ...]}`. -/
structure SavedData where
  id : Nat
  notifications : List NotifRecord
deriving DecidableEq, Repr

/-- `[j for i in self._actions for j in (i.id, i.label)]`. -/
def flattenActions (l : List NotificationAction) : List String :=
  (l.map (fun a => [a.id, a.label])).flatten

/-- The `json` property of `Notification`. -/
def Notification.json (n : Notification) : NotifRecord :=
  { id := n.id, app_name := n.app_name, icon := n.icon, summary := n.summary,
    body := n.body, actions := flattenActions n.actions,
    timeout := n.timeout, time := n.time, urgency := n.urgency }

/-- The serialization side of `__sync` (build the data to be written). -/
def save (nextId : Nat) (notifs : List Notification) : SavedData :=
  ⟨nextId, notifs.map Notification.json⟩

/-- A well-formed saved file, viewed as the blob a later load will parse. -/
def SavedData.toBlob (d : SavedData) : Blob :=
  Blob.parsed ⟨some d.id, some (d.notifications.map JsonEntry.good)⟩

/-- `NOTIFICATIONS_EMPTY_CACHE_FILE = {"id": 0, "notifications": []}`. -/
def NOTIFICATIONS_EMPTY_CACHE_FILE : Blob :=
  Blob.parsed ⟨some 0, some []⟩

/-- Modelled from the spec: `CACHE_DIR` is defined in the package root (outside
the available sources); the spec only requires a fixed cache area path. -/
def CACHE_DIR : String := "~/.cache/ignis"

def NOTIFICATIONS_CACHE_DIR : String := CACHE_DIR ++ "/notifications"

def NOTIFICATIONS_IMAGE_DATA : String := NOTIFICATIONS_CACHE_DIR ++ "/images"

/-- The per-id image file path `f"{NOTIFICATIONS_IMAGE_DATA}/{_id}"`. -/
def imageDataPath (i : Nat) : String :=
  NOTIFICATIONS_IMAGE_DATA ++ "/" ++ toString i

/-- `Notification(**n, popup=False, dbus=...)` applied to a parsed record: the
flattened actions are re-paired by the constructor; an odd-length action
sequence raises (`none`). -/
def loadRecord (r : NotifRecord) : Option Notification :=
  (buildActions r.actions).map (fun acts =>
    { id := r.id, app_name := r.app_name, icon := r.icon, summary := r.summary,
      body := r.body, actions := acts, urgency := r.urgency, timeout := r.timeout,
      time := r.time, popup := false, closedHandlers := [], dismissedConnected := false })

/-- `dict.get(k, None)` on an insertion-ordered dictionary. -/
def dictGet {α : Type} : List (Nat × α) → Nat → Option α
  | [], _ => none
  | (k, v) :: rest, i => if k = i then some v else dictGet rest i

/-- `d[k] = v`: replace in place when the key exists, append otherwise. -/
def dictSet {α : Type} : List (Nat × α) → Nat → α → List (Nat × α)
  | [], i, v => [(i, v)]
  | (k, w) :: rest, i, v => if k = i then (i, v) :: rest else (k, w) :: dictSet rest i v

/-- `d.pop(k)` (callers only reach this with the key present; on a missing key
the source would raise `KeyError`, and the missing-key case removes nothing). -/
def dictPop {α : Type} : List (Nat × α) → Nat → List (Nat × α)
  | [], _ => []
  | (k, w) :: rest, i => if k = i then rest else (k, w) :: dictPop rest i

/-- Apply a field write to the value stored at a key (no-op when absent): models
a mutation of the shared object aliased under that id. -/
def dictUpd {α : Type} (d : List (Nat × α)) (i : Nat) (f : α → α) : List (Nat × α) :=
  d.map (fun p => if p.1 = i then (p.1, f p.2) else p)

/-- `dict.values()`. -/
def dictValues {α : Type} (d : List (Nat × α)) : List α :=
  d.map Prod.snd

/-- Observable events, in emission order: the per-notification "closed" and
"dismissed" signals, the service's "notified" and "new_popup" signals, the bus
signal `NotificationClosed(id, reason)`, and GObject property-change
notifications. -/
inductive Event where
  | closed (id : Nat)
  | dismissed (id : Nat)
  | notified (id : Nat)
  | newPopup (id : Nat)
  | notificationClosed (id : Nat) (reason : Nat)
  | propNotify (name : String)
deriving DecidableEq, Repr

/-- The registry state: `_id` is the id counter, `notifications` and `popups`
the two insertion-ordered dictionaries, `dnd` / `popupTimeout` /
`maxPopupsCount` the options-store values, `file` the persisted cache file and
`imageFiles` the decoded images written under the cache area. -/
structure ServiceState where
  _id : Nat
  notifications : List (Nat × Notification)
  popups : List (Nat × Notification)
  dnd : Bool
  popupTimeout : Int
  maxPopupsCount : Int
  file : Blob
  imageFiles : List (String × ImageData)
deriving DecidableEq, Repr

/-- The state right after `__init__`, before `__load_notifications` runs:
counter `0`, empty dictionaries, the given option values and on-disk blob. -/
def initState (dnd : Bool) (popupTimeout maxPopupsCount : Int) (file : Blob) : ServiceState :=
  { _id := 0, notifications := [], popups := [], dnd := dnd,
    popupTimeout := popupTimeout, maxPopupsCount := maxPopupsCount,
    file := file, imageFiles := [] }

/-- The connections made by `__add_notification`: append `__close_notification`
to the "closed" handlers and connect `__dismiss_popup` to "dismissed". -/
def connectHandlers (n : Notification) : Notification :=
  { n with closedHandlers := n.closedHandlers ++ [ClosedHandler.closeNotification],
           dismissedConnected := true }

/-- `__add_notification`: connect the handlers on the object, then
`self._notifications[notification.id] = notification`.  The connection mutates
the object in place; when the same object was just admitted into `_popups`
(exactly when `popup` is true), the popups entry at that id is the same object
and observes the connection. -/
def addNotification (s : ServiceState) (n : Notification) : ServiceState :=
  let n2 := connectHandlers n
  { s with notifications := dictSet s.notifications n.id n2,
           popups := if n.popup then dictUpd s.popups n.id (fun _ => n2) else s.popups }

/-- `__sync`: write `{"id": self._id, "notifications": [n.json ...]}` to the
cache file. -/
def syncState (s : ServiceState) : ServiceState :=
  { s with file := (save s._id (dictValues s.notifications)).toBlob }

/-- `__dismiss_popup`: `if self._popups.get(id, None): pop; notify("popups")`. -/
def dismissPopup (s : ServiceState) (i : Nat) : ServiceState × List Event :=
  match dictGet s.popups i with
  | some _ => ({ s with popups := dictPop s.popups i }, [Event.propNotify "popups"])
  | none => (s, [])

/-- Write a field of the object aliased under id `i` through both dictionaries. -/
def updObj (s : ServiceState) (i : Nat) (f : Notification → Notification) : ServiceState :=
  { s with notifications := dictUpd s.notifications i f,
           popups := dictUpd s.popups i f }

/-- `Notification.dismiss` called on the object `n` (returned: the new state,
the object's new value, the emitted events).  When `popup` is set: write
`_popup = False`, emit "dismissed" (running `__dismiss_popup` when connected),
then `notify("popup")`.  Otherwise a no-op. -/
def dismissObj (s : ServiceState) (n : Notification) : ServiceState × Notification × List Event :=
  if n.popup then
    let n2 := { n with popup := false }
    let s1 := updObj s n.id (fun m => { m with popup := false })
    let r2 := if n.dismissedConnected then dismissPopup s1 n.id else (s1, [])
    (r2.1, n2, Event.dismissed n.id :: r2.2 ++ [Event.propNotify "popup"])
  else (s, n, [])

/-- `__close_notification`: pop the id from `_notifications` (the key is present
on every path that reaches this handler), dismiss if still a popup, `__sync`,
emit `NotificationClosed(id, 2)`, `notify("notifications")`. -/
def closeNotificationHandler (s : ServiceState) (n : Notification) :
    ServiceState × Notification × List Event :=
  let s1 := { s with notifications := dictPop s.notifications n.id }
  let r := if n.popup then dismissObj s1 n else (s1, n, [])
  (syncState r.1, r.2.1, r.2.2 ++ [Event.notificationClosed n.id 2, Event.propNotify "notifications"])

/-- `__save_pixbuf`: decode the image payload and write it at the given path
(the decoder is an external collaborator; the write is recorded). -/
def savePixbuf (s : ServiceState) (img : ImageData) (path : String) : ServiceState :=
  { s with imageFiles := s.imageFiles ++ [(path, img)] }

/-- The popup admission guard of `__init_notification`:
`if len(self.popups) >= self.max_popups_count:` then, unless
`max_popups_count == 0`, `self.popups[-1].dismiss()`.  `popups[-1]` is the last
value of the insertion-ordered dictionary; on an empty dictionary the indexing
raises `IndexError` (`none`), reachable only with a negative
`max_popups_count`. -/
def evictionStep (s : ServiceState) : Option (ServiceState × List Event) :=
  if s.maxPopupsCount ≤ (s.popups.length : Int) then
    if s.maxPopupsCount = 0 then some (s, [])
    else
      match s.popups.getLast? with
      | some p =>
        let r := dismissObj s p.2
        some (r.1, r.2.2)
      | none => none
  else some (s, [])

/-- `__init_notification` (returned: state, events, and whether an exception
was raised mid-way, escaping the call).  Order as in the source: resolve the
icon (the `image-data` hint overrides `app_icon`, which is always a string over
the bus), persist image bytes, construct the `Notification` (pairing the
flattened actions), run the admission guard, admit the popup, connect and
register the object, `__sync`, emit "notified" and `notify("notifications")`. -/
def initNotification (s0 : ServiceState) (i : Nat) (a : NotifyArgs) :
    ServiceState × List Event × Bool :=
  let icon : Option String :=
    match a.hints.imageData with
    | some _ => some (imageDataPath i)
    | none => some a.app_icon
  let s :=
    match a.hints.imageData with
    | some img => savePixbuf s0 img (imageDataPath i)
    | none => s0
  match buildActions a.actions with
  | none => (s, [], true)
  | some acts =>
    let n : Notification :=
      { id := i, app_name := a.app_name, icon := icon, summary := a.summary,
        body := a.body, actions := acts, urgency := a.hints.urgency.getD 1,
        timeout := if a.timeout = -1 then s.popupTimeout else a.timeout,
        time := a.now, popup := !s.dnd,
        closedHandlers := [], dismissedConnected := false }
    match evictionStep s with
    | none => (s, [], true)
    | some (s1, ev1) =>
      let r2 :=
        if n.popup then
          ({ s1 with popups := dictSet s1.popups n.id n },
           [Event.newPopup n.id, Event.propNotify "popups"])
        else (s1, [])
      let s3 := addNotification r2.1 n
      let s4 := syncState s3
      (s4, ev1 ++ r2.2 ++ [Event.notified n.id, Event.propNotify "notifications"], false)

/-- Run the handlers connected to a "closed" signal, in connection order,
threading the object's current value (the source passes the same object to each
handler).  An exception inside a signal handler is printed and swallowed by the
signal machinery, so a raising `_init` does not abort the emission. -/
def runClosedHandlers (s : ServiceState) (n : Notification) :
    List ClosedHandler → ServiceState × List Event
  | [] => (s, [])
  | ClosedHandler.closeNotification :: rest =>
    let r1 := closeNotificationHandler s n
    let r2 := runClosedHandlers r1.1 r1.2.1 rest
    (r2.1, r1.2.2 ++ r2.2)
  | ClosedHandler.initReplacement i args :: rest =>
    let r1 := initNotification s i args
    let r2 := runClosedHandlers r1.1 n rest
    (r2.1, r1.2.1 ++ r2.2)

/-- `Notification.close`: `self.emit("closed")` — the signal fires and the
handlers connected at this moment run synchronously. -/
def closeObj (s : ServiceState) (n : Notification) : ServiceState × List Event :=
  let r := runClosedHandlers s n n.closedHandlers
  (r.1, Event.closed n.id :: r.2)

/-- `get_notification`. -/
def getNotification (s : ServiceState) (i : Nat) : Option Notification :=
  dictGet s.notifications i

/-- `__CloseNotification`: look the id up; close when found, otherwise do
nothing. -/
def closeNotificationMethod (s : ServiceState) (i : Nat) : ServiceState × List Event :=
  match dictGet s.notifications i with
  | some n => closeObj s n
  | none => (s, [])

/-- `__Notify` (returned: state, events, and the returned id — `none` when the
call raised before returning).  `replaces_id == 0` allocates
`_id = self._id = self._id + 1` and initializes; a nonzero `replaces_id` with an
existing target calls `old_notification.close()` and only *afterwards* connects
`lambda x: _init(_id)` to the already-emitted "closed" signal: the closed object
is no longer referenced by the registry and the signal is never emitted again,
so the handler never runs and only the close's effects remain; a stale
`replaces_id` initializes immediately under the given id. -/
def notifyMethod (s : ServiceState) (replaces_id : Nat) (a : NotifyArgs) :
    ServiceState × List Event × Option Nat :=
  if replaces_id = 0 then
    let newId := s._id + 1
    let s1 := { s with _id := newId }
    let r := initNotification s1 newId a
    (r.1, r.2.1, if r.2.2 then none else some newId)
  else
    match dictGet s.notifications replaces_id with
    | some old =>
      let r := closeObj s old
      (r.1, r.2, some replaces_id)
    | none =>
      let r := initNotification s replaces_id a
      (r.1, r.2.1, if r.2.2 then none else some replaces_id)

/-- A sequence of `Notify` calls, all with `replaces_id = 0`, collecting the
returned ids (`none` for a call that raised). -/
def notifySeq (s : ServiceState) : List NotifyArgs → ServiceState × List (Option Nat)
  | [] => (s, [])
  | a :: rest =>
    let r := notifyMethod s 0 a
    let r2 := notifySeq r.1 rest
    (r2.1, r.2.2 :: r2.2)

/-- The loop body of `__load_notifications`: construct and register each entry
in order; a structurally invalid entry raises (`true`), keeping the entries
registered so far. -/
def loadLoop (s : ServiceState) : List JsonEntry → ServiceState × Bool
  | [] => (s, false)
  | JsonEntry.bad :: _ => (s, true)
  | JsonEntry.good r :: rest =>
    match loadRecord r with
    | none => (s, true)
    | some n => loadLoop (addNotification s n) rest

/-- `__load_notifications`: parse the file, register every entry with
`popup=False`, then restore the counter; any exception lands in the handler
that rewrites the file to `NOTIFICATIONS_EMPTY_CACHE_FILE` (and changes nothing
else). -/
def loadNotifications (s : ServiceState) (b : Blob) : ServiceState :=
  match b with
  | Blob.corrupt => { s with file := NOTIFICATIONS_EMPTY_CACHE_FILE }
  | Blob.parsed f =>
    let r := loadLoop s (f.notifications.getD [])
    if r.2 then { r.1 with file := NOTIFICATIONS_EMPTY_CACHE_FILE }
    else { r.1 with _id := f.id.getD 0 }

/-- Does loading this blob raise internally (and hence rewrite the file)? -/
def entryFails : JsonEntry → Bool
  | JsonEntry.bad => true
  | JsonEntry.good r => (buildActions r.actions).isNone

def loadFails : Blob → Bool
  | Blob.corrupt => true
  | Blob.parsed f => (f.notifications.getD []).any entryFails

/-- Field-wise equivalence used for the persistence round trip: all persisted
fields agree, including the ordered action pairs (the restored object differs
only in `popup`, which is reset, and in its handler connections). -/
def NotifEquiv (a b : Notification) : Prop :=
  a.id = b.id ∧ a.app_name = b.app_name ∧ a.icon = b.icon ∧ a.summary = b.summary ∧
  a.body = b.body ∧ a.timeout = b.timeout ∧ a.time = b.time ∧ a.urgency = b.urgency ∧
  a.actions = b.actions

/-- Consistency of a popups entry in a reachable state: the key is the object's
id, the object is flagged as a popup and `__dismiss_popup` is connected. -/
def PopupOK (p : Nat × Notification) : Prop :=
  p.1 = p.2.id ∧ p.2.popup = true ∧ p.2.dismissedConnected = true

/-- Consistency of a reachable registry state: popup entries are well formed and
every registered notification has exactly `__close_notification` connected to
its "closed" signal. -/
def StateOK (s : ServiceState) : Prop :=
  (∀ p ∈ s.popups, PopupOK p) ∧
  (∀ p ∈ s.notifications, p.2.closedHandlers = [ClosedHandler.closeNotification])

/-- The notification restored from a persisted record of `n`: same data fields,
`popup` reset and the service handlers connected. -/
def restoredOf (n : Notification) : Notification :=
  { n with popup := false, closedHandlers := [ClosedHandler.closeNotification],
           dismissedConnected := true }

/-! ### Concrete fixtures used by the closed theorems and witnesses -/

def fixtureNotification : Notification :=
  { id := 1, app_name := "a", icon := some "i", summary := "s", body := "b",
    actions := [], urgency := 1, timeout := 5000, time := 10, popup := false,
    closedHandlers := [ClosedHandler.closeNotification], dismissedConnected := true }

def fixtureArgs : NotifyArgs :=
  { app_name := "app", app_icon := "firefox", summary := "s", body := "b",
    actions := [], hints := { urgency := none, imageData := none },
    timeout := 5000, now := 42 }

def fixtureImage : ImageData :=
  { width := 1, height := 1, rowstride := 4, hasAlpha := true, bitsPerSample := 8,
    channels := 4, data := [0] }

def fixtureArgsImage : NotifyArgs :=
  { fixtureArgs with hints := { urgency := none, imageData := some fixtureImage } }

/-- A registry holding one notification with id 1 (not a popup). -/
def fixtureStateOne : ServiceState :=
  { _id := 3, notifications := [(1, fixtureNotification)], popups := [], dnd := false,
    popupTimeout := 5000, maxPopupsCount := 3, file := Blob.corrupt, imageFiles := [] }

def fixturePopup (i : Nat) : Notification :=
  { fixtureNotification with id := i, popup := true }

/-- A registry holding three popups inserted in the order 1, 2, 3, with
`max_popups_count = 3`. -/
def fixtureStateFull : ServiceState :=
  { _id := 3,
    notifications := [(1, fixturePopup 1), (2, fixturePopup 2), (3, fixturePopup 3)],
    popups := [(1, fixturePopup 1), (2, fixturePopup 2), (3, fixturePopup 3)],
    dnd := false, popupTimeout := 5000, maxPopupsCount := 3, file := Blob.corrupt,
    imageFiles := [] }

def fixtureRecord : NotifRecord :=
  { id := 9, app_name := "a", icon := none, summary := "s", body := "b",
    actions := ["x", "y"], timeout := 1, time := 2, urgency := 1 }

/-- A parseable persisted blob whose second entry is structurally invalid. -/
def fixtureBadBlob : Blob :=
  Blob.parsed ⟨some 5, some [JsonEntry.good fixtureRecord, JsonEntry.bad]⟩

def fixtureNotifWithActions : Notification :=
  { fixtureNotification with actions := [⟨"aid", "albl"⟩, ⟨"b", "bl"⟩] }

/-! ### Dictionary lemmas -/

theorem dictGet_dictSet_self {α : Type} (d : List (Nat × α)) (k : Nat) (v : α) :
    dictGet (dictSet d k v) k = some v := by
  induction d with
  | nil => simp [dictSet, dictGet]
  | cons p rest ih =>
    by_cases h : p.1 = k
    · simp [dictSet, h, dictGet]
    · simp [dictSet, h, dictGet, ih]

theorem dictSet_length_le {α : Type} (d : List (Nat × α)) (k : Nat) (v : α) :
    (dictSet d k v).length ≤ d.length + 1 := by
  induction d with
  | nil => simp [dictSet]
  | cons p rest ih =>
    by_cases h : p.1 = k
    · simp [dictSet, h]
    · simp only [dictSet, h, if_false, List.length_cons]
      omega

theorem dictPop_length_le {α : Type} (d : List (Nat × α)) (k : Nat) :
    (dictPop d k).length ≤ d.length := by
  induction d with
  | nil => simp [dictPop]
  | cons p rest ih =>
    by_cases h : p.1 = k
    · simp [dictPop, h]
    · simp only [dictPop, h, if_false, List.length_cons]
      omega

theorem dictPop_length_of_mem {α : Type} (d : List (Nat × α)) (k : Nat)
    (h : k ∈ d.map Prod.fst) : (dictPop d k).length + 1 = d.length := by
  induction d with
  | nil => simp at h
  | cons p rest ih =>
    by_cases hp : p.1 = k
    · simp [dictPop, hp]
    · simp only [List.map_cons, List.mem_cons] at h
      rcases h with h | h

      · exact absurd h.symm hp
      · have := ih h
        simp only [dictPop, hp, if_false, List.length_cons]
        omega

theorem dictUpd_length {α : Type} (d : List (Nat × α)) (k : Nat) (f : α → α) :
    (dictUpd d k f).length = d.length := by
  simp [dictUpd]

theorem dictUpd_keys {α : Type} (d : List (Nat × α)) (k : Nat) (f : α → α) :
    (dictUpd d k f).map Prod.fst = d.map Prod.fst := by
  induction d with
  | nil => rfl
  | cons p rest ih =>
    by_cases h : p.1 = k
    · simp [dictUpd, h] at ih ⊢
      exact ih
    · simp [dictUpd, h] at ih ⊢
      exact ih

theorem dictGet_isSome_of_mem {α : Type} (d : List (Nat × α)) (k : Nat)
    (h : k ∈ d.map Prod.fst) : (dictGet d k).isSome := by
  induction d with
  | nil => simp at h
  | cons p rest ih =>
    by_cases hp : p.1 = k
    · simp [dictGet, hp]
    · simp only [List.map_cons, List.mem_cons] at h
      rcases h with h | h
      · exact absurd h.symm hp
      · simp only [dictGet, hp, if_false]
        exact ih h

theorem dictGet_mem {α : Type} (d : List (Nat × α)) (k : Nat) (v : α)
    (h : dictGet d k = some v) : (k, v) ∈ d := by
  induction d with
  | nil => simp [dictGet] at h
  | cons p rest ih =>
    by_cases hp : p.1 = k
    · simp only [dictGet, hp, if_true, Option.some_inj] at h
      obtain ⟨a, b⟩ := p
      simp only at hp h
      rw [← hp, ← h]
      exact List.mem_cons_self _ _
    · simp only [dictGet, hp, if_false] at h
      exact List.mem_cons_of_mem _ (ih h)

theorem dictSet_fresh {α : Type} (d : List (Nat × α)) (k : Nat) (v : α)
    (h : k ∉ d.map Prod.fst) : dictSet d k v = d ++ [(k, v)] := by
  induction d with
  | nil => rfl
  | cons p rest ih =>
    simp only [List.map_cons, List.mem_cons] at h
    push_neg at h
    simp only [dictSet, Ne.symm h.1, if_false, List.cons_append]
    rw [ih h.2]

theorem mem_dictSet {α : Type} (d : List (Nat × α)) (k : Nat) (v : α) (p : Nat × α)
    (h : p ∈ dictSet d k v) : p ∈ d ∨ p = (k, v) := by
  induction d with
  | nil => simp [dictSet] at h; right; exact h
  | cons q rest ih =>
    by_cases hq : q.1 = k
    · simp only [dictSet, hq, if_true, List.mem_cons] at h
      rcases h with h | h
      · right; exact h
      · left; exact List.mem_cons_of_mem _ h
    · simp only [dictSet, hq, if_false, List.mem_cons] at h
      rcases h with h | h
      · left; exact h ▸ List.mem_cons_self _ _
      · rcases ih h with h2 | h2
        · left; exact List.mem_cons_of_mem _ h2
        · right; exact h2

/-! ### Frame lemmas: which state components each operation preserves -/

theorem syncState_id (s : ServiceState) : (syncState s)._id = s._id := rfl

theorem syncState_popups (s : ServiceState) : (syncState s).popups = s.popups := rfl

theorem syncState_max (s : ServiceState) : (syncState s).maxPopupsCount = s.maxPopupsCount := rfl

theorem addNotification_id (s : ServiceState) (n : Notification) :
    (addNotification s n)._id = s._id := rfl

theorem addNotification_max (s : ServiceState) (n : Notification) :
    (addNotification s n).maxPopupsCount = s.maxPopupsCount := rfl

theorem addNotification_popups_length (s : ServiceState) (n : Notification) :
    (addNotification s n).popups.length = s.popups.length := by
  unfold addNotification
  by_cases h : n.popup
  · simp [h, dictUpd_length]
  · simp [h]

theorem savePixbuf_frame (s : ServiceState) (img : ImageData) (path : String) :
    (savePixbuf s img path)._id = s._id ∧ (savePixbuf s img path).popups = s.popups ∧
    (savePixbuf s img path).maxPopupsCount = s.maxPopupsCount ∧
    (savePixbuf s img path).dnd = s.dnd ∧
    (savePixbuf s img path).popupTimeout = s.popupTimeout ∧
    (savePixbuf s img path).notifications = s.notifications :=
  ⟨rfl, rfl, rfl, rfl, rfl, rfl⟩

theorem dismissPopup_id (s : ServiceState) (i : Nat) : (dismissPopup s i).1._id = s._id := by
  unfold dismissPopup
  split <;> rfl

theorem dismissPopup_max (s : ServiceState) (i : Nat) :
    (dismissPopup s i).1.maxPopupsCount = s.maxPopupsCount := by
  unfold dismissPopup
  split <;> rfl

theorem dismissPopup_popups_le (s : ServiceState) (i : Nat) :
    (dismissPopup s i).1.popups.length ≤ s.popups.length := by
  unfold dismissPopup
  split
  · simpa using dictPop_length_le s.popups i
  · exact le_refl _

theorem updObj_id (s : ServiceState) (i : Nat) (f : Notification → Notification) :
    (updObj s i f)._id = s._id := rfl

theorem updObj_popups_length (s : ServiceState) (i : Nat) (f : Notification → Notification) :
    (updObj s i f).popups.length = s.popups.length := dictUpd_length _ _ _

theorem dismissObj_id (s : ServiceState) (n : Notification) :
    (dismissObj s n).1._id = s._id := by
  unfold dismissObj
  split
  · split
    · exact dismissPopup_id _ _
    · rfl
  · rfl

theorem dismissObj_max (s : ServiceState) (n : Notification) :
    (dismissObj s n).1.maxPopupsCount = s.maxPopupsCount := by
  unfold dismissObj
  split
  · split
    · exact dismissPopup_max _ _
    · rfl
  · rfl

theorem dismissObj_popups_le (s : ServiceState) (n : Notification) :
    (dismissObj s n).1.popups.length ≤ s.popups.length := by
  unfold dismissObj
  split
  · split
    · calc (dismissPopup (updObj s n.id _) n.id).1.popups.length
          ≤ (updObj s n.id _).popups.length := dismissPopup_popups_le _ _
        _ = s.popups.length := updObj_popups_length _ _ _
    · exact le_of_eq (updObj_popups_length _ _ _)
  · exact le_refl _

/-- When the dismissed object is a consistent member of the popup subset, the
dismissal removes exactly one entry. -/
theorem dismissObj_popups_evict (s : ServiceState) (n : Notification)
    (hpop : n.popup = true) (hcon : n.dismissedConnected = true)
    (hmem : n.id ∈ s.popups.map Prod.fst) :
    (dismissObj s n).1.popups.length + 1 = s.popups.length := by
  unfold dismissObj
  simp only [hpop, if_true, hcon]
  have hmem2 : n.id ∈ (updObj s n.id (fun m => { m with popup := false })).popups.map Prod.fst := by
    unfold updObj
    simpa [dictUpd_keys] using hmem
  have hsome := dictGet_isSome_of_mem _ _ hmem2
  unfold dismissPopup
  obtain ⟨v, hv⟩ := Option.isSome_iff_exists.mp hsome
  simp only [hv]
  show (dictPop (updObj s n.id (fun m => { m with popup := false })).popups n.id).length + 1
      = s.popups.length
  have h1 := dictPop_length_of_mem
    ((updObj s n.id (fun m => { m with popup := false })).popups) n.id hmem2
  have h2 := updObj_popups_length s n.id (fun m => { m with popup := false })
  omega

theorem closeNotificationHandler_id (s : ServiceState) (n : Notification) :
    (closeNotificationHandler s n).1._id = s._id := by
  unfold closeNotificationHandler
  split
  · simp only [syncState_id]
    exact dismissObj_id _ _
  · rfl

theorem closeNotificationHandler_max (s : ServiceState) (n : Notification) :
    (closeNotificationHandler s n).1.maxPopupsCount = s.maxPopupsCount := by
  unfold closeNotificationHandler
  split
  · simp only [syncState_max]
    exact dismissObj_max _ _
  · rfl

theorem closeNotificationHandler_popups_le (s : ServiceState) (n : Notification) :
    (closeNotificationHandler s n).1.popups.length ≤ s.popups.length := by
  unfold closeNotificationHandler
  split
  · simp only [syncState_popups]
    exact dismissObj_popups_le _ _
  · exact le_refl _

/-! ### Lemmas about the popup admission guard -/

theorem evictionStep_id (s s1 : ServiceState) (ev : List Event)
    (h : evictionStep s = some (s1, ev)) : s1._id = s._id := by
  unfold evictionStep at h
  split at h
  · split at h
    · simp only [Option.some_inj, Prod.mk.injEq] at h
      rw [← h.1]
    · split at h
      · simp only [Option.some_inj, Prod.mk.injEq] at h
        rw [← h.1]
        exact dismissObj_id _ _
      · exact absurd h (by simp)
  · simp only [Option.some_inj, Prod.mk.injEq] at h
    rw [← h.1]

theorem evictionStep_max (s s1 : ServiceState) (ev : List Event)
    (h : evictionStep s = some (s1, ev)) : s1.maxPopupsCount = s.maxPopupsCount := by
  unfold evictionStep at h
  split at h
  · split at h
    · simp only [Option.some_inj, Prod.mk.injEq] at h
      rw [← h.1]
    · split at h
      · simp only [Option.some_inj, Prod.mk.injEq] at h
        rw [← h.1]
        exact dismissObj_max _ _
      · exact absurd h (by simp)
  · simp only [Option.some_inj, Prod.mk.injEq] at h
    rw [← h.1]

theorem evictionStep_isSome (s : ServiceState) (h : 0 ≤ s.maxPopupsCount) :
    (evictionStep s).isSome := by
  unfold evictionStep
  split
  · split
    · simp
    · have hne : s.popups ≠ [] := by
        intro hnil
        rename_i hguard hz
        rw [hnil] at hguard
        simp at hguard
        omega
      rw [List.getLast?_eq_getLast_of_ne_nil hne]
      simp
  · simp

/-- Under the reachable-state consistency of the popup subset, the admission
guard leaves room for one more popup whenever the bound held before and
`max_popups_count` is positive. -/
theorem evictionStep_bound (s : ServiceState)
    (hok : ∀ p ∈ s.popups, PopupOK p)
    (hle : (s.popups.length : Int) ≤ s.maxPopupsCount)
    (hpos : 0 < s.maxPopupsCount) :
    ∃ s1 ev, evictionStep s = some (s1, ev) ∧
      (s1.popups.length : Int) + 1 ≤ s.maxPopupsCount := by
  by_cases hguard : s.maxPopupsCount ≤ (s.popups.length : Int)
  · have hz : ¬ s.maxPopupsCount = 0 := by omega
    have hne : s.popups ≠ [] := by
      intro hnil
      rw [hnil] at hguard
      simp at hguard
      omega
    have hp := List.getLast?_eq_getLast_of_ne_nil hne
    set p := s.popups.getLast hne with hpdef
    have hpm : p ∈ s.popups := List.getLast_mem hne
    obtain ⟨hid, hpop, hcon⟩ := hok p hpm
    have hmem : p.2.id ∈ s.popups.map Prod.fst := by
      rw [← hid]
      exact List.mem_map_of_mem Prod.fst hpm
    have hev := dismissObj_popups_evict s p.2 hpop hcon hmem
    refine ⟨(dismissObj s p.2).1, (dismissObj s p.2).2.2, ?_, by omega⟩
    unfold evictionStep
    simp only [hguard, if_true, hz, if_false, hp]
  · refine ⟨s, [], ?_, by omega⟩
    unfold evictionStep
    simp only [hguard, if_false]

/-! ### Lemmas about notification initialization and the protocol operations -/

theorem initNotification_id (s : ServiceState) (i : Nat) (a : NotifyArgs) :
    (initNotification s i a).1._id = s._id := by
  unfold initNotification
  cases himg : a.hints.imageData with
  | none =>
    simp only
    cases hb : buildActions a.actions with
    | none => rfl
    | some acts =>
      simp only
      cases hev : evictionStep s with
      | none => rfl
      | some r =>
        obtain ⟨s1, ev1⟩ := r
        have h1 : s1._id = s._id := evictionStep_id s s1 ev1 hev
        simp only
        split
        · simpa [syncState_id, addNotification_id] using h1
        · simpa [syncState_id, addNotification_id] using h1
  | some img =>
    simp only
    cases hb : buildActions a.actions with
    | none => rfl
    | some acts =>
      simp only
      cases hev : evictionStep (savePixbuf s img (imageDataPath i)) with
      | none => rfl
      | some r =>
        obtain ⟨s1, ev1⟩ := r
        have h1 : s1._id = s._id := evictionStep_id (savePixbuf s img (imageDataPath i)) s1 ev1 hev
        simp only
        split
        · simpa [syncState_id, addNotification_id] using h1
        · simpa [syncState_id, addNotification_id] using h1

theorem initNotification_popups_bound (s : ServiceState) (i : Nat) (a : NotifyArgs)
    (hok : ∀ p ∈ s.popups, PopupOK p)
    (hle : (s.popups.length : Int) ≤ s.maxPopupsCount)
    (hpos : 0 < s.maxPopupsCount) :
    ((initNotification s i a).1.popups.length : Int) ≤ s.maxPopupsCount := by
  unfold initNotification
  cases himg : a.hints.imageData with
  | none =>
    simp only
    cases hb : buildActions a.actions with
    | none => exact hle
    | some acts =>
      simp only
      obtain ⟨s1, ev1, hev, hb1⟩ := evictionStep_bound s hok hle hpos
      rw [hev]
      simp only
      split
      · simp only [syncState_popups, addNotification_popups_length]
        have h2 : ∀ v : Notification, ((dictSet s1.popups i v).length : Int) ≤ s.maxPopupsCount := by
          intro v
          have := dictSet_length_le s1.popups i v
          omega
        exact h2 _
      · simp only [syncState_popups, addNotification_popups_length]
        omega
  | some img =>
    simp only
    cases hb : buildActions a.actions with
    | none => exact hle
    | some acts =>
      simp only
      obtain ⟨s1, ev1, hev, hb1⟩ :=
        evictionStep_bound (savePixbuf s img (imageDataPath i)) hok hle hpos
      rw [hev]
      simp only
      have hmax : (savePixbuf s img (imageDataPath i)).maxPopupsCount = s.maxPopupsCount := rfl
      split
      · simp only [syncState_popups, addNotification_popups_length]
        have h2 : ∀ v : Notification, ((dictSet s1.popups i v).length : Int) ≤ s.maxPopupsCount := by
          intro v
          have := dictSet_length_le s1.popups i v
          omega
        exact h2 _
      · simp only [syncState_popups, addNotification_popups_length]
        omega

theorem runClosedHandlers_id (hs : List ClosedHandler) : ∀ (s : ServiceState) (n : Notification),
    (runClosedHandlers s n hs).1._id = s._id := by
  induction hs with
  | nil => intro s n; rfl
  | cons h rest ih =>
    intro s n
    cases h with
    | closeNotification =>
      simp only [runClosedHandlers]
      rw [ih, closeNotificationHandler_id]
    | initReplacement i args =>
      simp only [runClosedHandlers]
      rw [ih, initNotification_id]

theorem closeObj_id (s : ServiceState) (n : Notification) :
    (closeObj s n).1._id = s._id := runClosedHandlers_id _ _ _

theorem closeObj_popups_le (s : ServiceState) (n : Notification)
    (h : n.closedHandlers = [ClosedHandler.closeNotification]) :
    (closeObj s n).1.popups.length ≤ s.popups.length := by
  unfold closeObj
  rw [h]
  simp only [runClosedHandlers]
  exact closeNotificationHandler_popups_le _ _

theorem notifyMethod_zero_id (s : ServiceState) (a : NotifyArgs) :
    (notifyMethod s 0 a).1._id = s._id + 1 := by
  show (initNotification { s with _id := s._id + 1 } (s._id + 1) a).1._id = s._id + 1
  rw [initNotification_id]

theorem notifyMethod_zero_ret (s : ServiceState) (a : NotifyArgs) :
    (notifyMethod s 0 a).2.2 = none ∨ (notifyMethod s 0 a).2.2 = some (s._id + 1) := by
  have hshow : (notifyMethod s 0 a).2.2 =
      (if (initNotification { s with _id := s._id + 1 } (s._id + 1) a).2.2 then none
       else some (s._id + 1)) := rfl
  rw [hshow]
  cases h : (initNotification { s with _id := s._id + 1 } (s._id + 1) a).2.2
  · right; simp [h]
  · left; simp [h]

/-- Along a sequence of `replaces_id = 0` calls the counter only grows, every
returned id exceeds the starting counter, and the returned ids are strictly
increasing. -/
theorem notifySeq_spec (l : List NotifyArgs) : ∀ s : ServiceState,
    s._id ≤ (notifySeq s l).1._id ∧
    (∀ i ∈ (notifySeq s l).2.filterMap (fun o => o), s._id < i) ∧
    ((notifySeq s l).2.filterMap (fun o => o)).Pairwise (· < ·) := by
  induction l with
  | nil =>
    intro s
    refine ⟨le_refl _, ?_, ?_⟩ <;> simp [notifySeq]
  | cons a rest ih =>
    intro s
    obtain ⟨ih1, ih2, ih3⟩ := ih (notifyMethod s 0 a).1
    have hid := notifyMethod_zero_id s a
    have hseq : notifySeq s (a :: rest) =
        ((notifySeq (notifyMethod s 0 a).1 rest).1,
         (notifyMethod s 0 a).2.2 :: (notifySeq (notifyMethod s 0 a).1 rest).2) := rfl
    rw [hseq]
    rcases notifyMethod_zero_ret s a with hr | hr
    · rw [hr]
      simp only [List.filterMap_cons]
      refine ⟨by omega, ?_, ih3⟩
      intro i hi
      have := ih2 i hi
      omega
    · rw [hr]
      simp only [List.filterMap_cons]
      refine ⟨by omega, ?_, ?_⟩
      · intro i hi
        simp only [List.mem_cons] at hi
        rcases hi with rfl | hi
        · omega
        · have := ih2 i hi
          omega
      · refine List.Pairwise.cons ?_ ih3
        intro i hi
        have := ih2 i hi
        omega

/-! ### Lemmas about loading the persisted store -/

theorem loadRecord_popup (r : NotifRecord) (n : Notification) (h : loadRecord r = some n) :
    n.popup = false := by
  unfold loadRecord at h
  cases hb : buildActions r.actions with
  | none => rw [hb] at h; simp at h
  | some acts =>
    rw [hb] at h
    simp only [Option.map_some', Option.some_inj] at h
    rw [← h]

theorem loadRecord_none_iff (r : NotifRecord) :
    loadRecord r = none ↔ buildActions r.actions = none := by
  unfold loadRecord
  cases hb : buildActions r.actions <;> simp

theorem loadLoop_popups (entries : List JsonEntry) : ∀ s : ServiceState,
    (loadLoop s entries).1.popups = s.popups := by
  induction entries with
  | nil => intro s; rfl
  | cons e rest ih =>
    intro s
    cases e with
    | bad => rfl
    | good r =>
      cases hl : loadRecord r with
      | none => simp [loadLoop, hl]
      | some n =>
        have hp := loadRecord_popup r n hl
        simp only [loadLoop, hl]
        rw [ih]
        unfold addNotification
        simp [hp]

theorem loadLoop_id (entries : List JsonEntry) : ∀ s : ServiceState,
    (loadLoop s entries).1._id = s._id := by
  induction entries with
  | nil => intro s; rfl
  | cons e rest ih =>
    intro s
    cases e with
    | bad => rfl
    | good r =>
      cases hl : loadRecord r with
      | none => simp [loadLoop, hl]
      | some n =>
        simp only [loadLoop, hl]
        rw [ih]
        rfl

theorem loadLoop_raised (entries : List JsonEntry) : ∀ s : ServiceState,
    (loadLoop s entries).2 = entries.any entryFails := by
  induction entries with
  | nil => intro s; rfl
  | cons e rest ih =>
    intro s
    cases e with
    | bad => simp [loadLoop, entryFails]
    | good r =>
      cases hl : loadRecord r with
      | none =>
        have hb := (loadRecord_none_iff r).mp hl
        simp [loadLoop, hl, entryFails, hb]
      | some n =>
        have hb : (buildActions r.actions).isNone = false := by
          cases hba : buildActions r.actions
          · exact absurd ((loadRecord_none_iff r).mpr hba) (by simp [hl])
          · simp
        simp only [loadLoop, hl, List.any_cons, entryFails, hb, Bool.false_or]
        exact ih _

theorem loadLoop_all_popup_false (entries : List JsonEntry) : ∀ s : ServiceState,
    (∀ p ∈ s.notifications, p.2.popup = false) →
    ∀ p ∈ (loadLoop s entries).1.notifications, p.2.popup = false := by
  induction entries with
  | nil => intro s h; exact h
  | cons e rest ih =>
    intro s h
    cases e with
    | bad => exact h
    | good r =>
      cases hl : loadRecord r with
      | none => simpa [loadLoop, hl] using h
      | some n =>
        simp only [loadLoop, hl]
        apply ih
        intro p hp
        unfold addNotification at hp
        simp only at hp
        rcases mem_dictSet _ _ _ _ hp with hp2 | hp2
        · exact h p hp2
        · rw [hp2]
          show (connectHandlers n).popup = false
          have := loadRecord_popup r n hl
          simpa [connectHandlers] using this

theorem buildActions_flatten (l : List NotificationAction) :
    buildActions (flattenActions l) = some l := by
  induction l with
  | nil => rfl
  | cons a rest ih =>
    have : flattenActions (a :: rest) = a.id :: a.label :: flattenActions rest := by
      simp [flattenActions]
    rw [this]
    simp only [buildActions, ih, Option.map_some', Option.some_inj]

theorem loadRecord_json (n : Notification) :
    loadRecord (Notification.json n) =
      some { n with popup := false, closedHandlers := [], dismissedConnected := false } := by
  unfold loadRecord Notification.json
  simp [buildActions_flatten]

theorem loadLoop_append (ns : List Notification) : ∀ s : ServiceState,
    (ns.map Notification.id).Nodup →
    (∀ n ∈ ns, n.id ∉ s.notifications.map Prod.fst) →
    loadLoop s ((ns.map Notification.json).map JsonEntry.good) =
      ({ s with notifications := s.notifications ++ ns.map (fun n => (n.id, restoredOf n)) },
       false) := by
  induction ns with
  | nil =>
    intro s hnd hfresh
    simp [loadLoop]
  | cons n rest ih =>
    intro s hnd hfresh
    have hload := loadRecord_json n
    simp only [List.map_cons]
    have hadd : addNotification s
        { n with popup := false, closedHandlers := [], dismissedConnected := false } =
        { s with notifications := s.notifications ++ [(n.id, restoredOf n)] } := by
      unfold addNotification connectHandlers restoredOf
      simp [dictSet_fresh _ _ _ (hfresh n (List.mem_cons_self _ _))]
    rw [loadLoop, hload]
    simp only
    rw [hadd]
    have hnd2 : (rest.map Notification.id).Nodup := by
      simp only [List.map_cons, List.nodup_cons] at hnd
      exact hnd.2
    have hhead : n.id ∉ rest.map Notification.id := by
      simp only [List.map_cons, List.nodup_cons] at hnd
      exact hnd.1
    have hfresh2 : ∀ m ∈ rest,
        m.id ∉ ({ s with notifications := s.notifications ++ [(n.id, restoredOf n)] } :
          ServiceState).notifications.map Prod.fst := by
      intro m hm
      simp only [List.map_append, List.map_cons, List.map_nil, List.mem_append,
        List.mem_singleton]
      push_neg
      constructor
      · exact hfresh m (List.mem_cons_of_mem _ hm)
      · intro hcontra
        apply hhead
        have hmn : m.id = n.id := hcontra
        rw [← hmn]
        exact List.mem_map_of_mem Notification.id hm
    rw [ih _ hnd2 hfresh2]
    simp [List.append_assoc]

theorem syncState_notifications (s : ServiceState) :
    (syncState s).notifications = s.notifications := rfl

/-- After initializing a notification, the stored object under its id is the
constructed notification with the service handlers connected. -/
theorem dictGet_after_add (t : ServiceState) (n : Notification) (k : Nat) (hk : n.id = k) :
    dictGet (syncState (addNotification t n)).notifications k = some (connectHandlers n) := by
  rw [← hk]
  show dictGet (dictSet t.notifications n.id (connectHandlers n)) n.id = _
  exact dictGet_dictSet_self _ _ _

theorem dismissObj_nonpopup (s : ServiceState) (n : Notification) (h : n.popup = false) :
    dismissObj s n = (s, n, []) := by
  unfold dismissObj
  rw [h]
  simp

theorem dismissObj_events_count (s : ServiceState) (n : Notification) (h : n.popup = true) :
    ((dismissObj s n).2.2).count (Event.dismissed n.id) = 1 := by
  unfold dismissObj
  rw [if_pos h]
  simp only
  split
  · unfold dismissPopup
    split <;> simp [List.count_cons, List.count_append]
  · simp [List.count_cons, List.count_append]

/-! ### Claim theorems -/

/-- C1: the spec requires `Notify` with an existing `replaces_id = X` to close
the old notification and then construct a replacement with id X, emitting
"notified" after "closed".  The code closes the old notification and only then
connects the replacement initializer to the already-emitted "closed" signal, so
the replacement is never constructed: evaluated on a registry holding
notification 1, the call returns 1 and emits "closed", but afterwards no
notification with id 1 exists and no "notified" signal was emitted. -/
theorem notify_replace_existing_drops_replacement :
    (notifyMethod fixtureStateOne 1 fixtureArgs).2.2 = some 1 ∧
    dictGet (notifyMethod fixtureStateOne 1 fixtureArgs).1.notifications 1 = none ∧
    Event.closed 1 ∈ (notifyMethod fixtureStateOne 1 fixtureArgs).2.1 ∧
    Event.notified 1 ∉ (notifyMethod fixtureStateOne 1 fixtureArgs).2.1 := by
  decide

/-- C2 counterexample: with `max_popups_count = 0` and `dnd = false`, a `Notify`
call skips eviction but still admits the new popup, so the popup subset is not
empty, refuting "when max_popups_count == 0 the popup subset is always
empty". -/
theorem popups_nonempty_with_zero_max_cex :
    (initState false 5000 0 Blob.corrupt).maxPopupsCount = 0 ∧
    (notifyMethod (initState false 5000 0 Blob.corrupt) 0 fixtureArgs).1.popups.map
      Prod.fst = [1] := by
  decide

/-- C2 (amended): after any `Notify` call from a consistent registry state whose
popup subset does not exceed `max_popups_count`, with `max_popups_count`
positive, the popup subset still has at most `max_popups_count` elements. -/
theorem popups_bounded_after_notify (s : ServiceState) (rid : Nat) (a : NotifyArgs)
    (hok : StateOK s) (hle : (s.popups.length : Int) ≤ s.maxPopupsCount)
    (hpos : 0 < s.maxPopupsCount) :
    ((notifyMethod s rid a).1.popups.length : Int) ≤ s.maxPopupsCount := by
  by_cases h0 : rid = 0
  · subst h0
    have hshow : (notifyMethod s 0 a).1 =
        (initNotification { s with _id := s._id + 1 } (s._id + 1) a).1 := rfl
    rw [hshow]
    exact initNotification_popups_bound { s with _id := s._id + 1 } (s._id + 1) a hok.1 hle hpos
  · unfold notifyMethod
    rw [if_neg h0]
    cases hg : dictGet s.notifications rid with
    | some old =>
      simp only
      have hh := hok.2 _ (dictGet_mem _ _ _ hg)
      have hcl := closeObj_popups_le s old hh
      omega
    | none =>
      simp only
      exact initNotification_popups_bound s rid a hok.1 hle hpos

theorem popups_bounded_after_notify_witness :
    StateOK (initState false 5000 3 Blob.corrupt) ∧
    (((initState false 5000 3 Blob.corrupt).popups.length : Int) ≤
      (initState false 5000 3 Blob.corrupt).maxPopupsCount) ∧
    (0 : Int) < (initState false 5000 3 Blob.corrupt).maxPopupsCount ∧
    ((notifyMethod (initState false 5000 3 Blob.corrupt) 0 fixtureArgs).1.popups.length : Int) ≤
      (initState false 5000 3 Blob.corrupt).maxPopupsCount :=
  ⟨⟨by simp [initState], by simp [initState]⟩, by decide, by decide,
    popups_bounded_after_notify (initState false 5000 3 Blob.corrupt) 0 fixtureArgs
      ⟨by simp [initState], by simp [initState]⟩ (by decide) (by decide)⟩

/-- C3: the spec and the service's own docstrings say the oldest-inserted popup
is evicted and that `popups` is ordered newest-first, but `popups[-1]` is the
newest-inserted entry of the insertion-ordered dictionary: with popups inserted
in the order 1, 2, 3 and `max_popups_count = 3`, a fourth `Notify` dismisses
popup 3 (not 1) and leaves the subset ordered oldest-first `[1, 2, 4]`. -/
theorem eviction_dismisses_newest_popup :
    Event.dismissed 3 ∈ (notifyMethod fixtureStateFull 0 fixtureArgs).2.1 ∧
    Event.dismissed 1 ∉ (notifyMethod fixtureStateFull 0 fixtureArgs).2.1 ∧
    (notifyMethod fixtureStateFull 0 fixtureArgs).1.popups.map Prod.fst = [1, 2, 4] := by
  decide

/-- C4 counterexample: a parseable blob whose second entry is structurally
invalid; loading rewrites the file to canonical empty form, but the first
(valid) entry remains registered in memory, so the in-memory store is not in
the canonical empty state. -/
theorem load_corrupted_keeps_partial_entries_cex :
    loadFails fixtureBadBlob = true ∧
    (loadNotifications (initState false 5000 3 fixtureBadBlob) fixtureBadBlob).notifications.map
      Prod.fst = [9] ∧
    (loadNotifications (initState false 5000 3 fixtureBadBlob) fixtureBadBlob).file =
      NOTIFICATIONS_EMPTY_CACHE_FILE := by
  decide

/-- C4 (amended): loading any corrupted persisted blob does not raise past the
load boundary (the model is total), rewrites the persisted file to the
canonical empty form, leaves `next_id = 0` and the popup subset empty; however
entries successfully constructed before the failure point remain in memory, so
the full collection is empty only when corruption is detected before any entry
loads. -/
theorem load_failure_resets_file_and_counter (dnd : Bool) (pt mx : Int) (b : Blob)
    (h : loadFails b = true) :
    (loadNotifications (initState dnd pt mx b) b).file = NOTIFICATIONS_EMPTY_CACHE_FILE ∧
    (loadNotifications (initState dnd pt mx b) b)._id = 0 ∧
    (loadNotifications (initState dnd pt mx b) b).popups = [] := by
  cases b with
  | corrupt => exact ⟨rfl, rfl, rfl⟩
  | parsed f =>
    have hany : (f.notifications.getD []).any entryFails = true := h
    have hraised := (loadLoop_raised (f.notifications.getD [])
      (initState dnd pt mx (Blob.parsed f))).trans hany
    have hstep : loadNotifications (initState dnd pt mx (Blob.parsed f)) (Blob.parsed f) =
        (if (loadLoop (initState dnd pt mx (Blob.parsed f)) (f.notifications.getD [])).2 = true
         then { (loadLoop (initState dnd pt mx (Blob.parsed f)) (f.notifications.getD [])).1
                with file := NOTIFICATIONS_EMPTY_CACHE_FILE }
         else { (loadLoop (initState dnd pt mx (Blob.parsed f)) (f.notifications.getD [])).1
                with _id := f.id.getD 0 }) := rfl
    rw [hstep, if_pos hraised]
    refine ⟨rfl, ?_, ?_⟩
    · show (loadLoop (initState dnd pt mx (Blob.parsed f)) (f.notifications.getD [])).1._id = 0
      rw [loadLoop_id]
      rfl
    · show (loadLoop (initState dnd pt mx (Blob.parsed f)) (f.notifications.getD [])).1.popups = []
      rw [loadLoop_popups]
      rfl

theorem load_failure_resets_file_and_counter_witness :
    loadFails Blob.corrupt = true ∧
    ((loadNotifications (initState false 5000 3 Blob.corrupt) Blob.corrupt).file =
        NOTIFICATIONS_EMPTY_CACHE_FILE ∧
      (loadNotifications (initState false 5000 3 Blob.corrupt) Blob.corrupt)._id = 0 ∧
      (loadNotifications (initState false 5000 3 Blob.corrupt) Blob.corrupt).popups = []) :=
  ⟨rfl, load_failure_resets_file_and_counter false 5000 3 Blob.corrupt rfl⟩

theorem forall2_restored (ns : List Notification) :
    List.Forall₂ NotifEquiv (ns.map restoredOf) ns := by
  induction ns with
  | nil => exact List.Forall₂.nil
  | cons n rest ih =>
    exact List.Forall₂.cons ⟨rfl, rfl, rfl, rfl, rfl, rfl, rfl, rfl, rfl⟩ ih

/-- C5: persistence round trip.  Saving the counter and a collection of
notifications (with distinct ids, as the registry's dictionary guarantees) and
loading the result reproduces the counter and a field-equivalent collection:
same ids, text fields, icon, timeout, time, urgency, and the same ordered
action pairs reconstructed from the flattened alternating sequence. -/
theorem persistence_round_trip (dnd : Bool) (pt mx : Int) (nextId : Nat)
    (notifs : List Notification) (hnd : (notifs.map Notification.id).Nodup) :
    (loadNotifications (initState dnd pt mx ((save nextId notifs).toBlob))
        ((save nextId notifs).toBlob))._id = nextId ∧
    List.Forall₂ NotifEquiv
      (dictValues (loadNotifications (initState dnd pt mx ((save nextId notifs).toBlob))
        ((save nextId notifs).toBlob)).notifications) notifs := by
  have hfresh : ∀ n ∈ notifs,
      n.id ∉ (initState dnd pt mx ((save nextId notifs).toBlob)).notifications.map Prod.fst := by
    intro n hn
    simp [initState]
  have happ := loadLoop_append notifs
    (initState dnd pt mx ((save nextId notifs).toBlob)) hnd hfresh
  have hr2 : (loadLoop (initState dnd pt mx ((save nextId notifs).toBlob))
      ((notifs.map Notification.json).map JsonEntry.good)).2 = false := by
    rw [happ]
  have hstep : loadNotifications (initState dnd pt mx ((save nextId notifs).toBlob))
        ((save nextId notifs).toBlob) =
      (if (loadLoop (initState dnd pt mx ((save nextId notifs).toBlob))
            ((notifs.map Notification.json).map JsonEntry.good)).2 = true
       then { (loadLoop (initState dnd pt mx ((save nextId notifs).toBlob))
                ((notifs.map Notification.json).map JsonEntry.good)).1
              with file := NOTIFICATIONS_EMPTY_CACHE_FILE }
       else { (loadLoop (initState dnd pt mx ((save nextId notifs).toBlob))
                ((notifs.map Notification.json).map JsonEntry.good)).1
              with _id := nextId }) := rfl
  rw [hstep, if_neg (by rw [hr2]; simp), happ]
  refine ⟨rfl, ?_⟩
  show List.Forall₂ NotifEquiv
    (dictValues (([] : List (Nat × Notification)) ++
      notifs.map (fun n => (n.id, restoredOf n)))) notifs
  unfold dictValues
  simp only [List.nil_append, List.map_map]
  have : ((fun p : Nat × Notification => p.2) ∘ fun n : Notification => (n.id, restoredOf n)) =
      restoredOf := rfl
  rw [this]
  exact forall2_restored notifs

theorem persistence_round_trip_witness :
    ((([fixtureNotifWithActions] : List Notification).map Notification.id).Nodup) ∧
    ((loadNotifications (initState false 5000 3 ((save 7 [fixtureNotifWithActions]).toBlob))
        ((save 7 [fixtureNotifWithActions]).toBlob))._id = 7 ∧
      List.Forall₂ NotifEquiv
        (dictValues (loadNotifications
          (initState false 5000 3 ((save 7 [fixtureNotifWithActions]).toBlob))
          ((save 7 [fixtureNotifWithActions]).toBlob)).notifications) [fixtureNotifWithActions]) :=
  ⟨by decide, persistence_round_trip false 5000 3 7 [fixtureNotifWithActions] (by decide)⟩

/-- C6: along any finite sequence of `Notify` calls with `replaces_id = 0`, the
returned ids are pairwise strictly increasing in order (hence never repeated)
and the `next_id` counter never decreases. -/
theorem notify_ids_strictly_increasing (s : ServiceState) (l : List NotifyArgs) :
    ((notifySeq s l).2.filterMap (fun o => o)).Pairwise (· < ·) ∧
    s._id ≤ (notifySeq s l).1._id :=
  ⟨(notifySeq_spec l s).2.2, (notifySeq_spec l s).1⟩

/-- C7 counterexample: a `Notify` call with non-empty `app_icon = "firefox"` and
an `image-data` hint stores the per-id image path as the icon, not `app_icon`
as-is: the hint overrides a non-empty `app_icon`. -/
theorem image_data_overrides_app_icon_cex :
    fixtureArgsImage.app_icon = "firefox" ∧
    (dictGet (notifyMethod (initState false 5000 3 Blob.corrupt) 0
      fixtureArgsImage).1.notifications 1).map Notification.icon =
      some (some (imageDataPath 1)) ∧
    imageDataPath 1 ≠ "firefox" := by
  decide

/-- C7 (amended): icon resolution.  If the hints carry raw image bytes, the
created notification's icon is the per-id image file path under the cache area
(the decoded bytes are persisted there), regardless of `app_icon`; otherwise
the icon is `app_icon` as-is, including when it is empty. -/
theorem icon_resolution (s : ServiceState) (a : NotifyArgs) (acts : List NotificationAction)
    (hb : buildActions a.actions = some acts) (hmx : 0 ≤ s.maxPopupsCount) :
    (dictGet (notifyMethod s 0 a).1.notifications (s._id + 1)).map Notification.icon =
      some (if a.hints.imageData.isSome then some (imageDataPath (s._id + 1))
            else some a.app_icon) := by
  have hshow : (notifyMethod s 0 a).1 =
      (initNotification { s with _id := s._id + 1 } (s._id + 1) a).1 := rfl
  rw [hshow]
  unfold initNotification
  cases himg : a.hints.imageData with
  | none =>
    simp only [himg, hb, Option.isSome_none, Bool.false_eq_true, if_false]
    obtain ⟨r, hr⟩ := Option.isSome_iff_exists.mp
      (evictionStep_isSome { s with _id := s._id + 1 } hmx)
    obtain ⟨s1, ev1⟩ := r
    rw [hr]
    simp only
    split
    · rw [dictGet_after_add _ _ (s._id + 1) rfl]
      rfl
    · rw [dictGet_after_add _ _ (s._id + 1) rfl]
      rfl
  | some img =>
    simp only [himg, hb, Option.isSome_some, if_true]
    obtain ⟨r, hr⟩ := Option.isSome_iff_exists.mp
      (evictionStep_isSome
        (savePixbuf { s with _id := s._id + 1 } img (imageDataPath (s._id + 1))) hmx)
    obtain ⟨s1, ev1⟩ := r
    rw [hr]
    simp only
    split
    · rw [dictGet_after_add _ _ (s._id + 1) rfl]
      rfl
    · rw [dictGet_after_add _ _ (s._id + 1) rfl]
      rfl

theorem icon_resolution_witness :
    buildActions fixtureArgsImage.actions = some [] ∧
    (0 : Int) ≤ (initState false 5000 3 Blob.corrupt).maxPopupsCount ∧
    (dictGet (notifyMethod (initState false 5000 3 Blob.corrupt) 0
        fixtureArgsImage).1.notifications
        ((initState false 5000 3 Blob.corrupt)._id + 1)).map Notification.icon =
      some (if fixtureArgsImage.hints.imageData.isSome
            then some (imageDataPath ((initState false 5000 3 Blob.corrupt)._id + 1))
            else some fixtureArgsImage.app_icon) :=
  ⟨rfl, by decide,
    icon_resolution (initState false 5000 3 Blob.corrupt) fixtureArgsImage [] rfl (by decide)⟩

/-- C8: `CloseNotification` on an id absent from the full collection is a
no-op: the state (full collection, popup subset, persisted file) is unchanged
and no event of any kind — in particular no "closed" and no
`NotificationClosed` — is emitted. -/
theorem close_nonexistent_noop (s : ServiceState) (i : Nat)
    (h : dictGet s.notifications i = none) :
    closeNotificationMethod s i = (s, []) := by
  unfold closeNotificationMethod
  rw [h]

theorem close_nonexistent_noop_witness :
    dictGet (initState false 5000 3 Blob.corrupt).notifications 5 = none ∧
    closeNotificationMethod (initState false 5000 3 Blob.corrupt) 5 =
      (initState false 5000 3 Blob.corrupt, []) :=
  ⟨rfl, close_nonexistent_noop (initState false 5000 3 Blob.corrupt) 5 rfl⟩

/-- C9 counterexample: a notification whose `popup` flag is already false (as
for any notification created under do-not-disturb or restored from disk) emits
zero "dismissed" events over two `dismiss` calls, refuting "invoking dismiss
twice produces exactly one dismissed event" for every notification. -/
theorem dismiss_nonpopup_no_event_cex :
    ((dismissObj (initState false 5000 3 Blob.corrupt) fixtureNotification).2.2 ++
      (dismissObj (dismissObj (initState false 5000 3 Blob.corrupt) fixtureNotification).1
        (dismissObj (initState false 5000 3 Blob.corrupt) fixtureNotification).2.1).2.2).count
      (Event.dismissed 1) = 0 := by
  decide

/-- C9 (amended): dismiss is idempotent.  For a notification whose `popup` flag
is set, two consecutive `dismiss` calls emit exactly one "dismissed" event in
total; the first call clears `popup` (and it is never set back), and the second
call is a complete no-op, leaving the state, the object and the popup subset
unchanged and emitting nothing. -/
theorem dismiss_idempotent (s : ServiceState) (n : Notification) (h : n.popup = true) :
    ((dismissObj s n).2.2 ++
        (dismissObj (dismissObj s n).1 (dismissObj s n).2.1).2.2).count
      (Event.dismissed n.id) = 1 ∧
    (dismissObj s n).2.1.popup = false ∧
    dismissObj (dismissObj s n).1 (dismissObj s n).2.1 =
      ((dismissObj s n).1, (dismissObj s n).2.1, []) := by
  have h1 : (dismissObj s n).2.1 = { n with popup := false } := by
    unfold dismissObj
    rw [if_pos h]
  have h2 : (dismissObj s n).2.1.popup = false := by rw [h1]
  have h3 := dismissObj_nonpopup (dismissObj s n).1 (dismissObj s n).2.1 h2
  refine ⟨?_, h2, h3⟩
  rw [h3]
  simp only [List.count_append, List.count_nil]
  have := dismissObj_events_count s n h
  omega

theorem dismiss_idempotent_witness :
    (fixturePopup 1).popup = true ∧
    (((dismissObj (initState false 5000 3 Blob.corrupt) (fixturePopup 1)).2.2 ++
        (dismissObj (dismissObj (initState false 5000 3 Blob.corrupt) (fixturePopup 1)).1
          (dismissObj (initState false 5000 3 Blob.corrupt) (fixturePopup 1)).2.1).2.2).count
      (Event.dismissed (fixturePopup 1).id) = 1 ∧
      (dismissObj (initState false 5000 3 Blob.corrupt) (fixturePopup 1)).2.1.popup = false ∧
      dismissObj (dismissObj (initState false 5000 3 Blob.corrupt) (fixturePopup 1)).1
          (dismissObj (initState false 5000 3 Blob.corrupt) (fixturePopup 1)).2.1 =
        ((dismissObj (initState false 5000 3 Blob.corrupt) (fixturePopup 1)).1,
         (dismissObj (initState false 5000 3 Blob.corrupt) (fixturePopup 1)).2.1, [])) :=
  ⟨rfl, dismiss_idempotent (initState false 5000 3 Blob.corrupt) (fixturePopup 1) rfl⟩

/-- C10: every notification restored from the persisted store is constructed
with `popup = False`, and loading never touches the popup dictionary, so right
after `__load_notifications` the popup subset is empty — whatever the blob
contains — and every restored notification has `popup = false`. -/
theorem loaded_notifications_not_popups (dnd : Bool) (pt mx : Int) (b : Blob) :
    (loadNotifications (initState dnd pt mx b) b).popups = [] ∧
    (loadNotifications (initState dnd pt mx b) b).notifications.all
      (fun p => !p.2.popup) = true := by
  cases b with
  | corrupt => exact ⟨rfl, rfl⟩
  | parsed f =>
    have hpop := loadLoop_popups (f.notifications.getD []) (initState dnd pt mx (Blob.parsed f))
    have hall := loadLoop_all_popup_false (f.notifications.getD [])
      (initState dnd pt mx (Blob.parsed f)) (by intro p hp; simp [initState] at hp)
    have hstep : loadNotifications (initState dnd pt mx (Blob.parsed f)) (Blob.parsed f) =
        (if (loadLoop (initState dnd pt mx (Blob.parsed f)) (f.notifications.getD [])).2 = true
         then { (loadLoop (initState dnd pt mx (Blob.parsed f)) (f.notifications.getD [])).1
                with file := NOTIFICATIONS_EMPTY_CACHE_FILE }
         else { (loadLoop (initState dnd pt mx (Blob.parsed f)) (f.notifications.getD [])).1
                with _id := f.id.getD 0 }) := rfl
    rw [hstep]
    split
    · refine ⟨?_, ?_⟩
      · show (loadLoop (initState dnd pt mx (Blob.parsed f)) (f.notifications.getD [])).1.popups = []
        rw [hpop]
        rfl
      · rw [List.all_eq_true]
        intro p hp
        have := hall p hp
        simp [this]
    · refine ⟨?_, ?_⟩
      · show (loadLoop (initState dnd pt mx (Blob.parsed f)) (f.notifications.getD [])).1.popups = []
        rw [hpop]
        rfl
      · rw [List.all_eq_true]
        intro p hp
        have := hall p hp
        simp [this]

end Ignis
